import Mathlib

set_option linter.unusedVariables false

/-!
Shallow embedding of the PostgreSQL connection-pool initialization module
(`pg_connection_init.cpp`) of the iroha storage layer, together with the
value-or-error `Result` type of `libs/common/result.hpp`.

Modelling conventions.

* The external soci driver / PostgreSQL server is modelled by a record
  `Driver σ` of state-transition functions over an abstract driver state `σ`.
  Each field corresponds to one kind of call into the native driver and
  returns either a normal response or a thrown exception carried as an
  `Except.error` with the message the C++ side would read from `e.what()`.

* C++ exception propagation is the `Except String` layer of each embedded
  function's return type; a C++ `try`/`catch` block is an explicit `match`
  on that layer.  Functions that cannot let an exception escape return a
  plain value (for instance `preparedTransactionsAvailable` returns `Bool`,
  and functions with a `Result` return type return `Result`).

* Every call into the native driver is recorded in an event trace
  (`St.trace`) and every log call in `St.logs`, so theorems can speak about
  which SQL statement was issued against which pool slot, and what was
  logged.  Events are recorded at the point of the call; for session opens
  the recorded event also carries whether the open succeeded.

* Pool slots are identified by their index `0, 1, ...`; the pool object
  itself is reduced to its size (`Pool`), and `PoolWrapper` keeps the pool
  together with the two-phase-commit capability flag.  The
  `FailoverCallbackHolder` machinery is abstracted to the
  `Event.attachFailover` trace event, and the reconnection strategy factory
  and logger-manager plumbing (pure configuration with no control-flow
  influence in this translation unit) are dropped from the signatures.

* `assert(pool_size > 0)` in `initializeConnectionPool` is compiled out in
  release builds; there `connection_pool.at(0)` on an empty pool throws the
  soci error "Invalid pool position", which is how the `pool_size = 0` case
  is rendered below.

* The two permission bit-set widths spliced into the DDL text come from
  `shared_model` constants outside this repository slice; following the
  spec they are taken as externally supplied parameters of `init_`.
-/

/-- The value-or-error type of `libs/common/result.hpp` (a two-alternative
variant of `Value` and `Error`). -/
inductive Result (V E : Type) where
  | value (v : V)
  | error (e : E)
  deriving DecidableEq

/-- Trace events: one per call into the native driver (plus the client-side
failover-callback attachment). -/
inductive Event where
  | openSession (slot : Nat) (options : String) (ok : Bool)
  | leaseScratch
  | attachNotice (slot : Nat)
  | query (slot : Nat) (stmt : String)
  | exec (slot : Nat) (stmt : String)
  | prepStatements (slot : Nat)
  | attachFailover (slot : Nat)
  | openTransient (options : String)
  | adminQuery (stmt : String)
  | adminExec (stmt : String)
  deriving DecidableEq

/-- Structured log messages at the two levels this module uses. -/
inductive LogMsg where
  | debug (msg : String)
  | warn (msg : String)
  deriving DecidableEq

/-- Interpreter state: the abstract driver state plus the observation
apparatus (event trace and log). -/
structure St (σ : Type) where
  ext : σ
  trace : List Event
  logs : List LogMsg

def St.emit {σ : Type} (st : St σ) (e : Event) : St σ :=
  { st with trace := st.trace ++ [e] }

def St.log {σ : Type} (st : St σ) (m : LogMsg) : St σ :=
  { st with logs := st.logs ++ [m] }

/-- The external soci/PostgreSQL driver, as a record of stateful operations.
`Except.error msg` models a thrown C++ exception whose `what()` is `msg`. -/
structure Driver (σ : Type) where
  openSession : σ → Nat → String → Except String Unit × σ
  lease : σ → Except String Nat × σ
  showMaxPrepared : σ → Nat → Except String Int × σ
  execStmt : σ → Nat → String → Except String Unit × σ
  prepStatements : σ → Nat → Except String Unit × σ
  openTransient : σ → String → Except String Unit × σ
  adminCountDatabase : σ → String → Except String Nat × σ
  adminExec : σ → String → Except String Unit × σ

/-- The connection pool, reduced to its slot count. -/
structure Pool where
  size : Nat
  deriving DecidableEq

/-- `iroha::ametsuchi::PoolWrapper`: the pool plus the two-phase-commit
capability flag (the failover-callback holder is abstracted away). -/
structure PoolWrapper where
  connection : Pool
  enable_prepared_transactions : Bool
  deriving DecidableEq

/-- `iroha::ametsuchi::PostgresOptions`, reduced to the three accessors this
translation unit uses. -/
structure PostgresOptions where
  dbname : String
  optionsString : String
  optionsStringWithoutDbName : String

/-- `formatPostgresMessage`: replace every `'\r'` and `'\n'` by a space
(`boost::replace_if(formatted_message, boost::is_any_of("\r\n"), ' ')`). -/
def formatPostgresMessage (message : String) : String :=
  String.mk (message.data.map (fun c => if c = '\r' ∨ c = '\n' then ' ' else c))

/-- `processPqNotice`: forward a server notice to the logger at debug level,
formatted like error messages. -/
def processPqNotice (message : String) : LogMsg :=
  LogMsg.debug (formatPostgresMessage message)

/-- The open loop of `initPostgresConnection`: open slots `i, i+1, ...`
(`n` remaining) with the given options; stop at the first throw. -/
def openSessions {σ : Type} (d : Driver σ) (options_str : String) :
    Nat → Nat → St σ → Except String Unit × St σ
  | _, 0, st => (.ok (), st)
  | i, Nat.succ n, st =>
    match d.openSession st.ext i options_str with
    | (.ok _, ext') =>
        openSessions d options_str (i + 1) n
          (St.emit { st with ext := ext' } (.openSession i options_str true))
    | (.error e, ext') =>
        (.error e, St.emit { st with ext := ext' } (.openSession i options_str false))

/-- `PgConnectionInit::initPostgresConnection`: open `pool_size` sessions;
any throw in the loop is caught and converted to a formatted error. -/
def initPostgresConnection {σ : Type} (d : Driver σ) (options_str : String)
    (pool_size : Nat) (st : St σ) : Result Pool String × St σ :=
  match openSessions d options_str 0 pool_size st with
  | (.ok _, st') => (.value ⟨pool_size⟩, st')
  | (.error e, st') => (.error (formatPostgresMessage e), st')

/-- `PgConnectionInit::preparedTransactionsAvailable`: query the server
setting; `true` iff the reported count is nonzero; any throw yields `false`. -/
def preparedTransactionsAvailable {σ : Type} (d : Driver σ) (slot : Nat)
    (st : St σ) : Bool × St σ :=
  let st1 := St.emit st (.query slot "SHOW max_prepared_transactions;")
  match d.showMaxPrepared st1.ext slot with
  | (.ok prepared_txs_count, ext') => (prepared_txs_count != 0, { st1 with ext := ext' })
  | (.error _, ext') => (false, { st1 with ext := ext' })

/-- The recovery transaction name: literal prefix concatenated with the raw
database name (`"prepared_block" + options.dbname()`). -/
def prepared_block_name (dbname : String) : String :=
  "prepared_block" ++ dbname

/-- `PgConnectionInit::rollbackPrepared`: issue
`ROLLBACK PREPARED '<name>';` against the given session; a throw is caught
and converted to a formatted error. -/
def rollbackPrepared {σ : Type} (d : Driver σ) (slot : Nat)
    (prepared_block_name : String) (st : St σ) : Result Unit String × St σ :=
  let stmt := "ROLLBACK PREPARED '" ++ prepared_block_name ++ "';"
  let st1 := St.emit st (.exec slot stmt)
  match d.execStmt st1.ext slot stmt with
  | (.ok _, ext') => (.value (), { st1 with ext := ext' })
  | (.error e, ext') => (.error (formatPostgresMessage e), { st1 with ext := ext' })

/-- The catalog query text of `createDatabaseIfNotExist`. -/
def kCountDatabaseQuery : String :=
  "SELECT count(datname) FROM pg_catalog.pg_database WHERE datname = :dbname"

/-- `PgConnectionInit::createDatabaseIfNotExist`: open a transient session
without a database, count catalog entries for `dbname`, create the database
when absent; one catch block around the whole body converts any throw into
a prefixed, formatted error. -/
def createDatabaseIfNotExist {σ : Type} (d : Driver σ) (dbname : String)
    (options_str_without_dbname : String) (st : St σ) : Result Bool String × St σ :=
  let st1 := St.emit st (.openTransient options_str_without_dbname)
  match d.openTransient st1.ext options_str_without_dbname with
  | (.error e, ext') =>
      (.error ("Connection to PostgreSQL broken: " ++ formatPostgresMessage e),
       { st1 with ext := ext' })
  | (.ok _, ext') =>
      let st2 := St.emit { st1 with ext := ext' } (.adminQuery kCountDatabaseQuery)
      match d.adminCountDatabase st2.ext dbname with
      | (.error e, ext2) =>
          (.error ("Connection to PostgreSQL broken: " ++ formatPostgresMessage e),
           { st2 with ext := ext2 })
      | (.ok size, ext2) =>
          let st3 : St σ := { st2 with ext := ext2 }
          if size = 0 then
            let query := "CREATE DATABASE " ++ dbname
            let st4 := St.emit st3 (.adminExec query)
            match d.adminExec st4.ext query with
            | (.ok _, ext3) => (.value true, { st4 with ext := ext3 })
            | (.error e, ext3) =>
                (.error ("Connection to PostgreSQL broken: " ++ formatPostgresMessage e),
                 { st4 with ext := ext3 })
          else (.value false, st3)

/-- The `try_rollback` lambda of `prepareConnectionPool`: when two-phase
commit is enabled, roll back the named prepared transaction and log a
warning on error; never throws. -/
def try_rollback {σ : Type} (d : Driver σ) (enable_prepared_transactions : Bool)
    (prepared_block_name : String) (slot : Nat) (st : St σ) : St σ :=
  if enable_prepared_transactions then
    match rollbackPrepared d slot prepared_block_name st with
    | (.value _, st') => st'
    | (.error e, st') => St.log st' (.warn ("rollback on creation has failed: " ++ e))
  else st

/-- The `init_failover_callback` lambda of `initializeConnectionPool`:
construct and register the failover callback for a session (client-side
bookkeeping, never throws). -/
def init_failover_callback {σ : Type} (slot : Nat) (st : St σ) :
    Except String Unit × St σ :=
  (.ok (), St.emit st (.attachFailover slot))

/-- The `init_db` lambda of `initializeConnectionPool`: run the rollback
hook, then apply the DDL text; a throw from the DDL statement propagates. -/
def init_db {σ : Type} (d : Driver σ) (tr : Nat → St σ → St σ)
    (prepare_tables_sql : String) (slot : Nat) (st : St σ) :
    Except String Unit × St σ :=
  let st1 := tr slot st
  let st2 := St.emit st1 (.exec slot prepare_tables_sql)
  match d.execStmt st2.ext slot prepare_tables_sql with
  | (.ok _, ext') => (.ok (), { st2 with ext := ext' })
  | (.error e, ext') => (.error e, { st2 with ext := ext' })

/-- The `initialize_session` lambda: attach the notice processor, run the
connection hook, run the database hook, then compile the prepared-statement
set; any throw propagates to the caller. -/
def initialize_session {σ : Type} (d : Driver σ) (slot : Nat)
    (on_init_db on_init_connection : Nat → St σ → Except String Unit × St σ)
    (st : St σ) : Except String Unit × St σ :=
  let st1 := St.emit st (.attachNotice slot)
  match on_init_connection slot st1 with
  | (.error e, st2) => (.error e, st2)
  | (.ok _, st2) =>
    match on_init_db slot st2 with
    | (.error e, st3) => (.error e, st3)
    | (.ok _, st3) =>
      let st4 := St.emit st3 (.prepStatements slot)
      match d.prepStatements st4.ext slot with
      | (.ok _, ext') => (.ok (), { st4 with ext := ext' })
      | (.error e, ext') => (.error e, { st4 with ext := ext' })

/-- The `restore_session` lambda of `init_failover_callback`: re-run
`initialize_session` with empty hooks after a reconnection. -/
def restore_session {σ : Type} (d : Driver σ) (slot : Nat) (st : St σ) :
    Except String Unit × St σ :=
  initialize_session d slot (fun _ s => (.ok (), s)) (fun _ s => (.ok (), s)) st

/-- The `for (i = 1; i != pool_size; i++)` loop of
`initializeConnectionPool`: initialize the listed slots with an empty
database hook. -/
def initRest {σ : Type} (d : Driver σ) : List Nat → St σ → Except String Unit × St σ
  | [], st => (.ok (), st)
  | slot :: rest, st =>
    match initialize_session d slot (fun _ s => (.ok (), s)) init_failover_callback st with
    | (.error e, st') => (.error e, st')
    | (.ok _, st') => initRest d rest st'

/-- `PgConnectionInit::initializeConnectionPool`: slot 0 gets the database
hook (`init_db`), every slot gets the failover hook.  With the release
build's compiled-out assert, `pool_size = 0` makes `connection_pool.at(0)`
throw soci's "Invalid pool position". -/
def initializeConnectionPool {σ : Type} (d : Driver σ) (pool_size : Nat)
    (prepare_tables_sql : String) (tr : Nat → St σ → St σ)
    (pg_reconnection_options : String) (st : St σ) : Except String Unit × St σ :=
  match pool_size with
  | 0 => (.error "Invalid pool position", st)
  | Nat.succ n =>
    match initialize_session d 0 (init_db d tr prepare_tables_sql)
        init_failover_callback st with
    | (.error e, st') => (.error e, st')
    | (.ok _, st') => initRest d (List.range' 1 n) st'

/-- `PgConnectionInit::init_`: the DDL text, with the two permission bit-set
widths spliced in via `std::to_string`. -/
def init_ (role_permission_count grantable_permission_count : Nat) : String :=
  "
CREATE TABLE IF NOT EXISTS role (
    role_id character varying(32),
    PRIMARY KEY (role_id)
);
CREATE TABLE IF NOT EXISTS domain (
    domain_id character varying(255),
    default_role character varying(32) NOT NULL REFERENCES role(role_id),
    PRIMARY KEY (domain_id)
);
CREATE TABLE IF NOT EXISTS signatory (
    public_key varchar NOT NULL,
    PRIMARY KEY (public_key)
);
CREATE TABLE IF NOT EXISTS account (
    account_id character varying(288),
    domain_id character varying(255) NOT NULL REFERENCES domain,
    quorum int NOT NULL,
    data JSONB,
    PRIMARY KEY (account_id)
);
CREATE TABLE IF NOT EXISTS account_has_signatory (
    account_id character varying(288) NOT NULL REFERENCES account,
    public_key varchar NOT NULL REFERENCES signatory,
    PRIMARY KEY (account_id, public_key)
);
CREATE TABLE IF NOT EXISTS peer (
    public_key varchar NOT NULL,
    address character varying(261) NOT NULL UNIQUE,
    PRIMARY KEY (public_key)
);
CREATE TABLE IF NOT EXISTS asset (
    asset_id character varying(288),
    domain_id character varying(255) NOT NULL REFERENCES domain,
    precision int NOT NULL,
    data json,
    PRIMARY KEY (asset_id)
);
CREATE TABLE IF NOT EXISTS account_has_asset (
    account_id character varying(288) NOT NULL REFERENCES account,
    asset_id character varying(288) NOT NULL REFERENCES asset,
    amount decimal NOT NULL,
    PRIMARY KEY (account_id, asset_id)
);
CREATE TABLE IF NOT EXISTS role_has_permissions (
    role_id character varying(32) NOT NULL REFERENCES role,
    permission bit(" ++ toString role_permission_count ++ ") NOT NULL,
    PRIMARY KEY (role_id)
);
CREATE TABLE IF NOT EXISTS account_has_roles (
    account_id character varying(288) NOT NULL REFERENCES account,
    role_id character varying(32) NOT NULL REFERENCES role,
    PRIMARY KEY (account_id, role_id)
);
CREATE TABLE IF NOT EXISTS account_has_grantable_permissions (
    permittee_account_id character varying(288) NOT NULL REFERENCES account,
    account_id character varying(288) NOT NULL REFERENCES account,
    permission bit(" ++ toString grantable_permission_count ++ ") NOT NULL,
    PRIMARY KEY (permittee_account_id, account_id)
);
CREATE TABLE IF NOT EXISTS position_by_hash (
    hash varchar,
    height bigint,
    index bigint
);

CREATE TABLE IF NOT EXISTS tx_status_by_hash (
    hash varchar,
    status boolean
);
CREATE INDEX IF NOT EXISTS tx_status_by_hash_hash_index ON tx_status_by_hash USING hash (hash);

CREATE TABLE IF NOT EXISTS height_by_account_set (
    account_id text,
    height bigint
);
CREATE TABLE IF NOT EXISTS index_by_creator_height (
    id serial,
    creator_id text,
    height bigint,
    index bigint
);
CREATE TABLE IF NOT EXISTS position_by_account_asset (
    account_id text,
    asset_id text,
    height bigint,
    index bigint
);
"

/-- `PgConnectionInit::kDefaultDatabaseName`. -/
def kDefaultDatabaseName : String := "iroha_default"

/-- `PgConnectionInit::prepareConnectionPool`: open the pool (errors are
returned as-is), lease a scratch session (outside the try block: a throw
here escapes), probe the two-phase-commit capability, then — inside the
try block — initialize all sessions and build the `PoolWrapper`; a throw
inside the try block is caught and returned as an unformatted error. -/
def prepareConnectionPool {σ : Type} (d : Driver σ) (options : PostgresOptions)
    (pool_size : Nat) (role_permission_count grantable_permission_count : Nat)
    (st : St σ) : Except String (Result PoolWrapper String) × St σ :=
  let options_str := options.optionsString
  match initPostgresConnection d options_str pool_size st with
  | (.error e, st1) => (.ok (.error e), st1)
  | (.value connection, st1) =>
    let st2 := St.emit st1 .leaseScratch
    match d.lease st2.ext with
    | (.error e, ext') => (.error e, { st2 with ext := ext' })
    | (.ok scratch, ext') =>
      let st3 : St σ := { st2 with ext := ext' }
      let probe := preparedTransactionsAvailable d scratch st3
      let enable_prepared_transactions := probe.1
      match initializeConnectionPool d pool_size
          (init_ role_permission_count grantable_permission_count)
          (try_rollback d enable_prepared_transactions
            (prepared_block_name options.dbname))
          options.optionsStringWithoutDbName probe.2 with
      | (.error e, st5) => (.ok (.error e), st5)
      | (.ok _, st5) =>
          (.ok (.value ⟨connection, enable_prepared_transactions⟩), st5)

/-- The bind operator `operator|` of `result.hpp` for a transformation
returning a `Result`: short-circuit on error, apply on value. -/
def resultBind {V E W : Type} (r : Result V E) (f : V → Result W E) : Result W E :=
  match r with
  | .value v => f v
  | .error e => .error e

/-- The bind operator `operator|` of `result.hpp` for a transformation
returning an unwrapped value: the outcome is lifted with `makeValue`. -/
def resultBindLift {V E W : Type} (r : Result V E) (f : V → W) : Result W E :=
  match r with
  | .value v => .value (f v)
  | .error e => .error e

/-- Projection of a trace to its `exec` events, as (slot, statement) pairs:
the database-level init actions (recovery rollback and DDL application). -/
def execsOf (l : List Event) : List (Nat × String) :=
  l.filterMap (fun ev => match ev with
    | .exec slot stmt => some (slot, stmt)
    | _ => none)

/-- A message is single-line when it contains no line-feed and no
carriage-return character. -/
def singleLine (s : String) : Prop :=
  ∀ c ∈ s.data, c ≠ '\n' ∧ c ≠ '\r'

/-- Reference model of the PostgreSQL server state seen by
`createDatabaseIfNotExist`: the set of existing databases. -/
structure PgServer where
  databases : List String
  deriving DecidableEq

/-- Reference driver over `PgServer`: the catalog count reports existence,
and `CREATE DATABASE <name>` adds `<name>`; every call succeeds. -/
def pgDriver : Driver PgServer where
  openSession := fun s _ _ => (.ok (), s)
  lease := fun s => (.ok 0, s)
  showMaxPrepared := fun s _ => (.ok 0, s)
  execStmt := fun s _ _ => (.ok (), s)
  prepStatements := fun s _ => (.ok (), s)
  openTransient := fun s _ => (.ok (), s)
  adminCountDatabase := fun s name => (.ok (if name ∈ s.databases then 1 else 0), s)
  adminExec := fun s stmt =>
    if stmt.data.take 16 = ("CREATE DATABASE ").data then
      (.ok (), ⟨s.databases ++ [String.mk (stmt.data.drop 16)]⟩)
    else (.ok (), s)

/-- A driver on a unit state whose every call succeeds. -/
def okDriver : Driver Unit where
  openSession := fun s _ _ => (.ok (), s)
  lease := fun s => (.ok 0, s)
  showMaxPrepared := fun s _ => (.ok 1, s)
  execStmt := fun s _ _ => (.ok (), s)
  prepStatements := fun s _ => (.ok (), s)
  openTransient := fun s _ => (.ok (), s)
  adminCountDatabase := fun s _ => (.ok 0, s)
  adminExec := fun s _ => (.ok (), s)

/-- Like `okDriver`, but leasing the scratch session throws. -/
def leaseFailDriver : Driver Unit :=
  { okDriver with lease := fun s => (.error "lease failed", s) }

/-- Like `okDriver`, but opening any session throws. -/
def openFailDriver : Driver Unit :=
  { okDriver with openSession := fun s _ _ => (.error "open failed", s) }

/-- Like `okDriver`, but the capability query throws. -/
def showFailDriver : Driver Unit :=
  { okDriver with showMaxPrepared := fun s _ => (.error "probe failed", s) }

/-- Like `okDriver`, but the recovery rollback statement for database
`dbA` throws with a chosen message. -/
def rbFailDriver (e : String) : Driver Unit :=
  { okDriver with execStmt := fun s _ stmt =>
      (if stmt = "ROLLBACK PREPARED 'prepared_blockdbA';" then Except.error e
       else .ok (), s) }

/-- Like `okDriver`, but the capability probe reports no support and every
statement execution throws with a two-line message; the first statement
executed is then the DDL. -/
def ddlFailDriver : Driver Unit :=
  { okDriver with
      showMaxPrepared := fun s _ => (.ok 0, s)
      execStmt := fun s _ _ => (.error "line1\nline2", s) }

/-- Like `okDriver`, but opening the transient admin session throws with a
two-line message. -/
def transFailDriver : Driver Unit :=
  { okDriver with openTransient := fun s _ => (.error "t\nfail", s) }

/-- Concrete options value for witnesses and counterexamples. -/
def optsA : PostgresOptions :=
  ⟨"dbA", "host=h dbname=dbA", "host=h"⟩

/-- Empty initial interpreter state over the unit driver state. -/
def st0 : St Unit := ⟨(), [], []⟩

/-- Initial interpreter state over a reference server. -/
def stPg (dbs : List String) : St PgServer := ⟨⟨dbs⟩, [], []⟩

/-! ## Helper lemmas -/

theorem execsOf_append (a b : List Event) : execsOf (a ++ b) = execsOf a ++ execsOf b :=
  List.filterMap_append a b _

theorem St.trace_emit {σ : Type} (st : St σ) (e : Event) :
    (St.emit st e).trace = st.trace ++ [e] := rfl

theorem openSessions_spec {σ : Type} (d : Driver σ) (o : String) :
    ∀ (n i : Nat) (st : St σ),
      (∃ st', openSessions d o i n st = (.ok (), st')
        ∧ st'.trace = st.trace
            ++ (List.range' i n).map (fun j => Event.openSession j o true)
        ∧ st'.logs = st.logs)
    ∨ (∃ e k st', k < n ∧ openSessions d o i n st = (.error e, st')
        ∧ st'.trace = st.trace
            ++ (List.range' i k).map (fun j => Event.openSession j o true)
            ++ [Event.openSession (i + k) o false]
        ∧ st'.logs = st.logs) := by
  intro n
  induction n with
  | zero =>
      intro i st
      exact Or.inl ⟨st, rfl, by simp, rfl⟩
  | succ n ih =>
      intro i st
      unfold openSessions
      cases h : d.openSession st.ext i o with
      | mk res ext' =>
        cases res with
        | ok u =>
            rcases ih (i + 1) (St.emit { st with ext := ext' } (.openSession i o true))
              with ⟨st', hrun, htr, hlg⟩ | ⟨e, k, st', hk, hrun, htr, hlg⟩
            · refine Or.inl ⟨st', ?_, ?_, hlg⟩
              · simp only [h, hrun]
              · rw [htr, St.trace_emit, List.range'_succ]
                simp [List.append_assoc]
            · refine Or.inr ⟨e, k + 1, st', by omega, ?_, ?_, hlg⟩
              · simp only [h, hrun]
              · rw [htr, St.trace_emit, List.range'_succ]
                have : i + 1 + k = i + (k + 1) := by omega
                simp [List.append_assoc, this]
        | error e =>
            refine Or.inr ⟨e, 0, St.emit { st with ext := ext' } (.openSession i o false),
              by omega, ?_, ?_, rfl⟩
            · simp only [h]
            · simp [St.trace_emit]

/-! ## Claim C2 -/

/-- C2: `initPostgresConnection` is all-or-nothing over the open loop:
either every one of the `pool_size` session opens succeeds (the trace shows
exactly the `pool_size` successful opens) and the whole pool is returned as
a value, or some open throws, the loop stops at the first failing slot, and
an error result carrying the formatted message — and no pool — is returned. -/
theorem c2_initPostgresConnection_all_or_nothing :
    ∀ (σ : Type) (d : Driver σ) (options_str : String) (pool_size : Nat) (st : St σ),
      (∃ pool st', initPostgresConnection d options_str pool_size st = (.value pool, st')
        ∧ pool.size = pool_size
        ∧ st'.trace = st.trace
            ++ (List.range pool_size).map (fun i => Event.openSession i options_str true))
    ∨ (∃ e k st', k < pool_size
        ∧ initPostgresConnection d options_str pool_size st
            = (.error (formatPostgresMessage e), st')
        ∧ st'.trace = st.trace
            ++ (List.range k).map (fun i => Event.openSession i options_str true)
            ++ [Event.openSession k options_str false]) := by
  intro σ d o n st
  rcases openSessions_spec d o n 0 st
    with ⟨st', hrun, htr, hlg⟩ | ⟨e, k, st', hk, hrun, htr, hlg⟩
  · refine Or.inl ⟨⟨n⟩, st', ?_, rfl, ?_⟩
    · unfold initPostgresConnection
      simp only [hrun]
    · rw [htr, List.range_eq_range']
  · refine Or.inr ⟨e, k, st', hk, ?_, ?_⟩
    · unfold initPostgresConnection
      simp only [hrun]
    · rw [htr, List.range_eq_range']
      simp

theorem St.trace_log {σ : Type} (st : St σ) (m : LogMsg) :
    (St.log st m).trace = st.trace := rfl

theorem try_rollback_trace {σ : Type} (d : Driver σ) (enable : Bool)
    (name : String) (slot : Nat) (st : St σ) :
    (try_rollback d enable name slot st).trace
      = st.trace
        ++ (if enable then [Event.exec slot ("ROLLBACK PREPARED '" ++ name ++ "';")]
            else []) := by
  cases enable with
  | false => simp [try_rollback]
  | true =>
      unfold try_rollback rollbackPrepared
      cases h : d.execStmt
          (St.emit st (.exec slot ("ROLLBACK PREPARED '" ++ name ++ "';"))).ext slot
          ("ROLLBACK PREPARED '" ++ name ++ "';") with
      | mk res ext' => cases res <;> simp [h, St.trace_emit, St.trace_log]

theorem init_db_trace {σ : Type} (d : Driver σ) (tr : Nat → St σ → St σ)
    (sql : String) (slot : Nat) (st : St σ) :
    (init_db d tr sql slot st).2.trace = (tr slot st).trace ++ [Event.exec slot sql] := by
  unfold init_db
  cases h : d.execStmt (St.emit (tr slot st) (.exec slot sql)).ext slot sql with
  | mk res ext' => cases res <;> simp [h, St.trace_emit]

theorem initialize_session_execsOf {σ : Type} (d : Driver σ) (slot : Nat)
    (db conn : Nat → St σ → Except String Unit × St σ) (st : St σ)
    (D : List (Nat × String))
    (hconn : ∀ s, ∃ s', conn slot s = (.ok (), s') ∧ execsOf s'.trace = execsOf s.trace)
    (hdb : ∀ s, execsOf ((db slot s).2.trace) = execsOf s.trace ++ D) :
    execsOf ((initialize_session d slot db conn st).2.trace) = execsOf st.trace ++ D := by
  unfold initialize_session
  dsimp only
  rcases hconn (St.emit st (.attachNotice slot)) with ⟨s', hc, hce⟩
  rw [hc]
  dsimp only
  have hnotice : execsOf (St.emit st (.attachNotice slot)).trace = execsOf st.trace := by
    simp [St.trace_emit, execsOf, List.filterMap_append]
  have hse0 : execsOf ((db slot s').2.trace) = execsOf st.trace ++ D := by
    rw [hdb s', hce, hnotice]
  cases hd : db slot s' with
  | mk res s'' =>
    rw [hd] at hse0
    cases res with
    | error e => simpa using hse0
    | ok u =>
        dsimp only
        cases hp : d.prepStatements (St.emit s'' (.prepStatements slot)).ext slot with
        | mk r2 ext' =>
          cases r2 <;>
            · dsimp only
              simp only [St.trace_emit, execsOf, List.filterMap_append] at hse0 ⊢
              simpa using hse0

theorem initRest_execsOf {σ : Type} (d : Driver σ) :
    ∀ (l : List Nat) (st : St σ),
      execsOf ((initRest d l st).2.trace) = execsOf st.trace := by
  intro l
  induction l with
  | nil => intro st; rfl
  | cons slot rest ih =>
      intro st
      unfold initRest
      have hinit := initialize_session_execsOf d slot
        (fun _ s => (.ok (), s)) init_failover_callback st []
        (fun s => ⟨St.emit s (.attachFailover slot), rfl, by
          simp [St.trace_emit, execsOf, List.filterMap_append]⟩)
        (fun s => by simp)
      cases h : initialize_session d slot (fun _ s => (.ok (), s)) init_failover_callback st with
      | mk res st' =>
        have hse : execsOf st'.trace = execsOf st.trace := by
          have := hinit
          rw [h] at this
          simpa using this
        cases res with
        | error e => simpa using hse
        | ok u => simp [ih st', hse]

theorem initializeConnectionPool_execsOf {σ : Type} (d : Driver σ) (n : Nat)
    (sql : String) (enable : Bool) (name ropts : String) (st : St σ) :
    execsOf ((initializeConnectionPool d (n + 1) sql (try_rollback d enable name)
        ropts st).2.trace)
      = execsOf st.trace
        ++ (if enable then [(0, "ROLLBACK PREPARED '" ++ name ++ "';")] else [])
        ++ [(0, sql)] := by
  unfold initializeConnectionPool
  have hinit := initialize_session_execsOf d 0
    (init_db d (try_rollback d enable name) sql) init_failover_callback st
    ((if enable then [(0, "ROLLBACK PREPARED '" ++ name ++ "';")] else []) ++ [(0, sql)])
    (fun s => ⟨St.emit s (.attachFailover 0), rfl, by
      simp [St.trace_emit, execsOf, List.filterMap_append]⟩)
    (fun s => by
      rw [init_db_trace, try_rollback_trace]
      cases enable <;>
        simp [execsOf, List.filterMap_append, List.append_assoc])
  cases h : initialize_session d 0 (init_db d (try_rollback d enable name) sql)
      init_failover_callback st with
  | mk res st' =>
    have hse : execsOf st'.trace
        = execsOf st.trace
          ++ ((if enable then [(0, "ROLLBACK PREPARED '" ++ name ++ "';")] else [])
              ++ [(0, sql)]) := by
      have := hinit
      rw [h] at this
      simpa using this
    cases res with
    | error e => simpa [List.append_assoc] using hse
    | ok u => simp [initRest_execsOf, hse, List.append_assoc]

theorem restore_session_trace {σ : Type} (d : Driver σ) (slot : Nat) (st : St σ) :
    (restore_session d slot st).2.trace
      = st.trace ++ [Event.attachNotice slot, Event.prepStatements slot] := by
  unfold restore_session initialize_session
  cases h : d.prepStatements
      (St.emit (St.emit st (.attachNotice slot)) (.prepStatements slot)).ext slot with
  | mk res ext' => cases res <;> simp [h, St.trace_emit]

/-! ## Claim C3 -/

/-- C3: in every pool construction by `initializeConnectionPool` with pool
size `n + 1 ≥ 1` (and the rollback hook `prepareConnectionPool` passes),
the database-level init actions recorded in the trace are exactly one
conditional recovery rollback and one DDL application, both against slot 0
— so no other slot runs them and the rollback is attempted at most once
(exactly once when enabled); and a reconnection restore
(`restore_session`) performs no database-level init action at all. -/
theorem c3_slot_zero_only_db_init :
    (∀ (σ : Type) (d : Driver σ) (n : Nat) (sql : String) (enable : Bool)
        (name ropts : String) (st : St σ),
      execsOf ((initializeConnectionPool d (n + 1) sql (try_rollback d enable name)
          ropts st).2.trace)
        = execsOf st.trace
          ++ (if enable then [(0, "ROLLBACK PREPARED '" ++ name ++ "';")] else [])
          ++ [(0, sql)])
    ∧ (∀ (σ : Type) (d : Driver σ) (slot : Nat) (st : St σ),
      execsOf ((restore_session d slot st).2.trace) = execsOf st.trace) := by
  constructor
  · intro σ d n sql enable name ropts st
    exact initializeConnectionPool_execsOf d n sql enable name ropts st
  · intro σ d slot st
    rw [restore_session_trace]
    simp [execsOf, List.filterMap_append]

/-! ## Claim C4 -/

/-- C4: the session bring-up sequence runs in the fixed order: attach the
notice forwarder (which routes server messages to the logger at debug
level), run the `on_init_connection` hook, run the `on_init_db` hook, and
unconditionally compile the prepared-statement set — the trace of
`initialize_session` is the notice event, then the connection hook's
events, then the database hook's events, then the statement-compilation
event; and the reconnection restore path (`restore_session`), which passes
empty hooks for steps 2 and 3, still ends with the statement-compilation
event on every run. -/
theorem c4_session_init_order :
    (∀ (σ : Type) (d : Driver σ) (slot : Nat)
        (db conn : Nat → St σ → Except String Unit × St σ)
        (st st₁ st₂ : St σ) (tc td : List Event),
      conn slot (St.emit st (.attachNotice slot)) = (.ok (), st₁) →
      st₁.trace = st.trace ++ [Event.attachNotice slot] ++ tc →
      db slot st₁ = (.ok (), st₂) →
      st₂.trace = st₁.trace ++ td →
      (initialize_session d slot db conn st).2.trace
        = st.trace ++ [Event.attachNotice slot] ++ tc ++ td
          ++ [Event.prepStatements slot])
    ∧ (∀ (σ : Type) (d : Driver σ) (slot : Nat) (st : St σ),
      (restore_session d slot st).2.trace
        = st.trace ++ [Event.attachNotice slot, Event.prepStatements slot])
    ∧ (∀ msg, processPqNotice msg = LogMsg.debug (formatPostgresMessage msg)) := by
  refine ⟨?_, ?_, fun msg => rfl⟩
  · intro σ d slot db conn st st₁ st₂ tc td hconn htr1 hdb htr2
    unfold initialize_session
    dsimp only
    rw [hconn]
    dsimp only
    rw [hdb]
    dsimp only
    cases hp : d.prepStatements (St.emit st₂ (.prepStatements slot)).ext slot with
    | mk r2 ext' =>
        cases r2 <;>
          simp [St.trace_emit, htr2, htr1, List.append_assoc]
  · intro σ d slot st
    exact restore_session_trace d slot st

/-- C4 witness: the theorem applied to the all-ok driver with empty hooks
on slot 0, to the restore path on slot 1, and to a concrete notice. -/
theorem c4_session_init_order_witness :
    (initialize_session okDriver 0 (fun _ s => (.ok (), s)) (fun _ s => (.ok (), s))
        st0).2.trace = [Event.attachNotice 0, Event.prepStatements 0]
    ∧ (restore_session okDriver 1 st0).2.trace
        = [Event.attachNotice 1, Event.prepStatements 1]
    ∧ processPqNotice "m" = LogMsg.debug (formatPostgresMessage "m") := by
  refine ⟨?_, ?_, c4_session_init_order.2.2 "m"⟩
  · have := c4_session_init_order.1 Unit okDriver 0
      (fun _ s => (.ok (), s)) (fun _ s => (.ok (), s)) st0
      (St.emit st0 (.attachNotice 0)) (St.emit st0 (.attachNotice 0)) [] []
      rfl (by simp [St.trace_emit, st0]) rfl (by simp)
    simpa [st0] using this
  · have := c4_session_init_order.2.1 Unit okDriver 1 st0
    simpa [st0] using this

/-! ## Claim C7 -/

/-- C7: the prepared-transaction name used for recovery is the literal
prefix "prepared_block" concatenated with the raw database name (no
escaping), and `rollbackPrepared` issues against the given session exactly
the statement `ROLLBACK PREPARED '<name>';` — both directly and when
invoked through the `try_rollback` hook. -/
theorem c7_rollback_statement_naming :
    (∀ dbname : String, prepared_block_name dbname = "prepared_block" ++ dbname)
    ∧ (∀ (σ : Type) (d : Driver σ) (slot : Nat) (name : String) (st : St σ),
        (rollbackPrepared d slot name st).2.trace
          = st.trace ++ [Event.exec slot ("ROLLBACK PREPARED '" ++ name ++ "';")])
    ∧ (∀ (σ : Type) (d : Driver σ) (name : String) (slot : Nat) (st : St σ),
        (try_rollback d true name slot st).trace
          = st.trace ++ [Event.exec slot ("ROLLBACK PREPARED '" ++ name ++ "';")]) := by
  refine ⟨fun _ => rfl, ?_, ?_⟩
  · intro σ d slot name st
    unfold rollbackPrepared
    dsimp only
    cases h : d.execStmt
        (St.emit st (.exec slot ("ROLLBACK PREPARED '" ++ name ++ "';"))).ext slot
        ("ROLLBACK PREPARED '" ++ name ++ "';") with
    | mk res ext' => cases res <;> simp [St.trace_emit]
  · intro σ d name slot st
    rw [try_rollback_trace]
    simp

/-! ## Claim C8 -/

/-- C8: the recovery rollback is attempted only when the capability probe
reported support — with the flag false the hook is the identity and the
pool construction's only database-level init action is the DDL; and a
rollback failure is non-fatal: with a driver that fails exactly the
rollback statement, `prepareConnectionPool` still returns a pool value and
the failure is logged at warning level with the formatted message. -/
theorem c8_rollback_failure_nonfatal :
    (∀ (σ : Type) (d : Driver σ) (name : String) (slot : Nat) (st : St σ),
        try_rollback d false name slot st = st)
    ∧ (∀ (σ : Type) (d : Driver σ) (n : Nat) (sql name ropts : String) (st : St σ),
        execsOf ((initializeConnectionPool d (n + 1) sql (try_rollback d false name)
            ropts st).2.trace)
          = execsOf st.trace ++ [(0, sql)])
    ∧ (∀ e : String,
        (prepareConnectionPool (rbFailDriver e) optsA 2 5 3 st0).1
          = .ok (.value ⟨⟨2⟩, true⟩)
        ∧ LogMsg.warn ("rollback on creation has failed: " ++ formatPostgresMessage e)
            ∈ (prepareConnectionPool (rbFailDriver e) optsA 2 5 3 st0).2.logs) := by
  refine ⟨fun σ d name slot st => rfl, ?_, ?_⟩
  · intro σ d n sql name ropts st
    have := initializeConnectionPool_execsOf d n sql false name ropts st
    simpa using this
  · intro e
    constructor
    · rfl
    · have hl : (prepareConnectionPool (rbFailDriver e) optsA 2 5 3 st0).2.logs
          = [LogMsg.warn ("rollback on creation has failed: "
              ++ formatPostgresMessage e)] := rfl
      rw [hl]
      exact List.mem_singleton.mpr rfl

/-! ## Claim C1 -/

/-- C1 counterexample: with a driver on which every operation succeeds
except that leasing the scratch session throws (`soci::session sql(*connection)`,
which the source places outside the try block), the exception propagates out
of `prepareConnectionPool` instead of being converted to an error result. -/
theorem c1_scratch_open_fault_escapes :
    (prepareConnectionPool leaseFailDriver optsA 1 5 3 st0).1
      = Except.error "lease failed" := rfl

/-- C1 amended: `prepareConnectionPool` converts every exception-class fault
to a result — faults opening the pool are caught in `initPostgresConnection`
and returned as error results, probe faults are absorbed into a false
capability flag, and faults inside the try block (session initialization,
recovery, DDL) are caught and returned as error results — with the single
exception of a fault raised while opening the scratch session, which
escapes uncaught; so every run either returns a result or escapes exactly
at the scratch-session lease (the trace then ends with the lease event). -/
theorem c1_faults_contained_except_scratch_open :
    ∀ (σ : Type) (d : Driver σ) (options : PostgresOptions)
      (pool_size rp gp : Nat) (st : St σ),
      (∃ r st', prepareConnectionPool d options pool_size rp gp st = (.ok r, st'))
      ∨ (∃ e st', prepareConnectionPool d options pool_size rp gp st = (.error e, st')
          ∧ st'.trace.getLast? = some Event.leaseScratch) := by
  intro σ d options n rp gp st
  unfold prepareConnectionPool
  dsimp only
  split
  · exact Or.inl ⟨_, _, rfl⟩
  · split
    · refine Or.inr ⟨_, _, rfl, ?_⟩
      show (St.emit _ Event.leaseScratch).trace.getLast? = some Event.leaseScratch
      rw [St.trace_emit]
      exact List.getLast?_concat _
    · split
      · exact Or.inl ⟨_, _, rfl⟩
      · exact Or.inl ⟨_, _, rfl⟩

/-! ## Claim C5 -/

theorem St.ext_emit {σ : Type} (st : St σ) (e : Event) :
    (St.emit st e).ext = st.ext := rfl

/-- C5: `preparedTransactionsAvailable` returns `true` iff the server
reports a nonzero `max_prepared_transactions` (captured by: when the query
returns `v`, the result is `v != 0`), returns `false` whenever the query
throws, and the capability flag stored in a successfully returned
`PoolWrapper` equals the probe's result on the reported value. -/
theorem c5_capability_probe :
    (∀ (σ : Type) (d : Driver σ) (slot : Nat) (st : St σ) (v : Int) (ext' : σ),
        d.showMaxPrepared st.ext slot = (.ok v, ext') →
        (preparedTransactionsAvailable d slot st).1 = (v != 0))
    ∧ (∀ (σ : Type) (d : Driver σ) (slot : Nat) (st : St σ) (e : String) (ext' : σ),
        d.showMaxPrepared st.ext slot = (.error e, ext') →
        (preparedTransactionsAvailable d slot st).1 = false)
    ∧ (∀ (σ : Type) (d : Driver σ) (options : PostgresOptions)
        (pool_size rp gp : Nat) (st : St σ) (v : Int) (w : PoolWrapper) (st' : St σ),
        (∀ s k, d.showMaxPrepared s k = (.ok v, s)) →
        prepareConnectionPool d options pool_size rp gp st = (.ok (.value w), st') →
        w.enable_prepared_transactions = (v != 0)) := by
  refine ⟨?_, ?_, ?_⟩
  · intro σ d slot st v ext' h
    unfold preparedTransactionsAvailable
    dsimp only
    rw [St.ext_emit, h]
  · intro σ d slot st e ext' h
    unfold preparedTransactionsAvailable
    dsimp only
    rw [St.ext_emit, h]
  · intro σ d options n rp gp st v w st' hprobe hres
    unfold prepareConnectionPool at hres
    dsimp only at hres
    split at hres
    · simp at hres
    · split at hres
      · simp at hres
      · split at hres
        · simp at hres
        · rw [Prod.mk.injEq] at hres
          obtain ⟨hw, hst⟩ := hres
          rw [Except.ok.injEq, Result.value.injEq] at hw
          rw [← hw]
          unfold preparedTransactionsAvailable
          dsimp only
          rw [hprobe]

/-- C5 witness: the theorem applied to the all-ok driver (which reports 1),
the failing-probe driver, and a full successful pool construction. -/
theorem c5_capability_probe_witness :
    (preparedTransactionsAvailable okDriver 0 st0).1 = ((1 : Int) != 0)
    ∧ (preparedTransactionsAvailable showFailDriver 0 st0).1 = false
    ∧ (⟨⟨1⟩, true⟩ : PoolWrapper).enable_prepared_transactions = ((1 : Int) != 0) := by
  refine ⟨?_, ?_, ?_⟩
  · exact c5_capability_probe.1 Unit okDriver 0 st0 1 () rfl
  · exact c5_capability_probe.2.1 Unit showFailDriver 0 st0 "probe failed" () rfl
  · exact c5_capability_probe.2.2 Unit okDriver optsA 1 5 3 st0 1 ⟨⟨1⟩, true⟩
      (prepareConnectionPool okDriver optsA 1 5 3 st0).2 (fun s k => rfl) rfl

/-! ## Claim C9 -/

/-- C9 counterexample: when the capability probe reports no support and the
DDL application throws with a two-line message, `prepareConnectionPool`
returns that message verbatim as an error — it is not sanitized (it still
contains a line feed), contradicting the claim that every error crossing
this API boundary has all control characters collapsed to spaces. -/
theorem c9_unsanitized_error_counterexample :
    (prepareConnectionPool ddlFailDriver optsA 1 5 3 st0).1
      = .ok (.error "line1\nline2")
    ∧ ¬ singleLine "line1\nline2" := by
  constructor
  · rfl
  · intro h
    exact (h '\n' (by decide)).1 rfl

theorem formatPostgresMessage_singleLine (msg : String) :
    singleLine (formatPostgresMessage msg) := by
  intro c hc
  have hc' : c ∈ msg.data.map (fun c => if c = '\r' ∨ c = '\n' then ' ' else c) := hc
  rcases List.mem_map.mp hc' with ⟨c0, hc0, hfc⟩
  subst hfc
  by_cases h2 : c0 = '\r' ∨ c0 = '\n'
  · simp only [if_pos h2]
    exact ⟨by decide, by decide⟩
  · simp only [if_neg h2]
    push_neg at h2
    exact ⟨h2.2, h2.1⟩

/-- C9 amended: forwarded server notices and the errors returned by
`initPostgresConnection`, `rollbackPrepared` and `createDatabaseIfNotExist`
are images of `formatPostgresMessage` (with a constant prefix in the last
case), which collapses exactly the carriage-return and line-feed
characters — not all control characters — to spaces, so those messages are
single-line; the error returned from `prepareConnectionPool`'s own catch
block, by contrast, is the raw exception message (see the counterexample). -/
theorem c9_sanitization_amended :
    (∀ msg, singleLine (formatPostgresMessage msg))
    ∧ (∀ msg, processPqNotice msg = LogMsg.debug (formatPostgresMessage msg))
    ∧ (∀ (σ : Type) (d : Driver σ) (o : String) (n : Nat) (st : St σ)
        (e : String) (st' : St σ),
        initPostgresConnection d o n st = (.error e, st') →
        ∃ raw, e = formatPostgresMessage raw)
    ∧ (∀ (σ : Type) (d : Driver σ) (slot : Nat) (name : String) (st : St σ)
        (e : String) (st' : St σ),
        rollbackPrepared d slot name st = (.error e, st') →
        ∃ raw, e = formatPostgresMessage raw)
    ∧ (∀ (σ : Type) (d : Driver σ) (name o : String) (st : St σ)
        (e : String) (st' : St σ),
        createDatabaseIfNotExist d name o st = (.error e, st') →
        ∃ raw, e = "Connection to PostgreSQL broken: " ++ formatPostgresMessage raw) := by
  refine ⟨formatPostgresMessage_singleLine, fun msg => rfl, ?_, ?_, ?_⟩
  · intro σ d o n st e st' h
    unfold initPostgresConnection at h
    split at h
    · simp at h
    · rw [Prod.mk.injEq] at h
      obtain ⟨he, _⟩ := h
      rw [Result.error.injEq] at he
      exact ⟨_, he.symm⟩
  · intro σ d slot name st e st' h
    unfold rollbackPrepared at h
    dsimp only at h
    split at h
    · simp at h
    · rw [Prod.mk.injEq] at h
      obtain ⟨he, _⟩ := h
      rw [Result.error.injEq] at he
      exact ⟨_, he.symm⟩
  · intro σ d name o st e st' h
    unfold createDatabaseIfNotExist at h
    dsimp only at h
    split at h
    · rw [Prod.mk.injEq] at h
      obtain ⟨he, _⟩ := h
      rw [Result.error.injEq] at he
      exact ⟨_, he.symm⟩
    · split at h
      · rw [Prod.mk.injEq] at h
        obtain ⟨he, _⟩ := h
        rw [Result.error.injEq] at he
        exact ⟨_, he.symm⟩
      · split at h
        · split at h
          · simp at h
          · rw [Prod.mk.injEq] at h
            obtain ⟨he, _⟩ := h
            rw [Result.error.injEq] at he
            exact ⟨_, he.symm⟩
        · simp at h

/-- C9 amended witness: the theorem applied to a two-line notice and to
concrete failing drivers for the three error-returning functions. -/
theorem c9_sanitization_amended_witness :
    singleLine (formatPostgresMessage "a\r\nb")
    ∧ processPqNotice "x" = LogMsg.debug (formatPostgresMessage "x")
    ∧ (∃ raw, "open failed" = formatPostgresMessage raw)
    ∧ (∃ raw, "line1 line2" = formatPostgresMessage raw)
    ∧ (∃ raw, "Connection to PostgreSQL broken: t fail"
        = "Connection to PostgreSQL broken: " ++ formatPostgresMessage raw) := by
  refine ⟨c9_sanitization_amended.1 "a\r\nb", c9_sanitization_amended.2.1 "x", ?_, ?_, ?_⟩
  · exact c9_sanitization_amended.2.2.1 Unit openFailDriver "o" 1 st0 "open failed"
      (initPostgresConnection openFailDriver "o" 1 st0).2 rfl
  · exact c9_sanitization_amended.2.2.2.1 Unit ddlFailDriver 0 "nm" st0 "line1 line2"
      (rollbackPrepared ddlFailDriver 0 "nm" st0).2 rfl
  · exact c9_sanitization_amended.2.2.2.2 Unit transFailDriver "db" "o" st0
      "Connection to PostgreSQL broken: t fail"
      (createDatabaseIfNotExist transFailDriver "db" "o" st0).2 rfl

/-! ## Claim C10 -/

/-- C10: the bind operator short-circuits on error — an error propagates
unchanged and the transformation is never consulted (any two
transformations yield the same outcome) — and applies the transformation on
a value (lifting a plain-valued transformation with `makeValue`); and
`prepareConnectionPool` preserves verbatim the error produced by
`initPostgresConnection` when the pool fails to open. -/
theorem c10_result_bind :
    (∀ (V E W : Type) (e : E) (f : V → Result W E), resultBind (.error e) f = .error e)
    ∧ (∀ (V E W : Type) (v : V) (f : V → Result W E), resultBind (.value v) f = f v)
    ∧ (∀ (V E W : Type) (e : E) (f g : V → Result W E),
        resultBind (.error e) f = resultBind (.error e) g)
    ∧ (∀ (V E W : Type) (e : E) (f : V → W), resultBindLift (.error e) f = .error e)
    ∧ (∀ (V E W : Type) (v : V) (f : V → W),
        @resultBindLift V E W (.value v) f = .value (f v))
    ∧ (∀ (σ : Type) (d : Driver σ) (options : PostgresOptions)
        (pool_size rp gp : Nat) (st st₁ : St σ) (e : String),
        initPostgresConnection d options.optionsString pool_size st = (.error e, st₁) →
        prepareConnectionPool d options pool_size rp gp st = (.ok (.error e), st₁)) := by
  refine ⟨fun V E W e f => rfl, fun V E W v f => rfl, fun V E W e f g => rfl,
          fun V E W e f => rfl, fun V E W v f => rfl, ?_⟩
  intro σ d options n rp gp st st₁ e h
  unfold prepareConnectionPool
  dsimp only
  rw [h]

/-- C10 witness: with a driver whose session opens throw, the error of
`initPostgresConnection` is returned verbatim by `prepareConnectionPool`. -/
theorem c10_result_bind_witness :
    prepareConnectionPool openFailDriver optsA 1 5 3 st0
      = (.ok (.error "open failed"),
         (initPostgresConnection openFailDriver optsA.optionsString 1 st0).2) :=
  c10_result_bind.2.2.2.2.2 Unit openFailDriver optsA 1 5 3 st0
    (initPostgresConnection openFailDriver optsA.optionsString 1 st0).2 "open failed" rfl

/-! ## Claim C6 -/

theorem create_db_stmt_take (name : String) :
    ("CREATE DATABASE " ++ name).data.take 16 = ("CREATE DATABASE ").data := by
  have h : ("CREATE DATABASE ").data.length = 16 := rfl
  rw [String.data_append, ← h, List.take_left]

theorem create_db_stmt_drop (name : String) :
    String.mk (("CREATE DATABASE " ++ name).data.drop 16) = name := by
  have h : ("CREATE DATABASE ").data.length = 16 := rfl
  rw [String.data_append, ← h, List.drop_left]

theorem createDB_absent (dbs : List String) (name opts : String)
    (tr : List Event) (lg : List LogMsg) (h : name ∉ dbs) :
    createDatabaseIfNotExist pgDriver name opts ⟨⟨dbs⟩, tr, lg⟩
      = (.value true,
         ⟨⟨dbs ++ [name]⟩,
          tr ++ [Event.openTransient opts, Event.adminQuery kCountDatabaseQuery,
                 Event.adminExec ("CREATE DATABASE " ++ name)], lg⟩) := by
  unfold createDatabaseIfNotExist
  simp only [pgDriver, St.emit]
  rw [if_neg h]
  rw [if_pos (create_db_stmt_take name)]
  rw [create_db_stmt_drop]
  simp [List.append_assoc]

theorem createDB_present (dbs : List String) (name opts : String)
    (tr : List Event) (lg : List LogMsg) (h : name ∈ dbs) :
    createDatabaseIfNotExist pgDriver name opts ⟨⟨dbs⟩, tr, lg⟩
      = (.value false,
         ⟨⟨dbs⟩,
          tr ++ [Event.openTransient opts, Event.adminQuery kCountDatabaseQuery],
          lg⟩) := by
  unfold createDatabaseIfNotExist
  simp only [pgDriver, St.emit]
  rw [if_pos h]
  simp [List.append_assoc]

/-- C6: against the reference server model, `createDatabaseIfNotExist`
queries the catalog; when the database is absent it issues
`CREATE DATABASE <name>` and returns `true` (the server then contains the
database), when present it performs no creation (the trace holds only the
open and the catalog query) and returns `false`; and a first call on a
fresh name followed by a second call with the identical name returns
`true` then `false`, with no error either time. -/
theorem c6_createDatabaseIfNotExist_idempotent :
    (∀ (dbs : List String) (name opts : String) (tr : List Event) (lg : List LogMsg),
      name ∉ dbs →
      createDatabaseIfNotExist pgDriver name opts ⟨⟨dbs⟩, tr, lg⟩
        = (.value true,
           ⟨⟨dbs ++ [name]⟩,
            tr ++ [Event.openTransient opts, Event.adminQuery kCountDatabaseQuery,
                   Event.adminExec ("CREATE DATABASE " ++ name)], lg⟩))
    ∧ (∀ (dbs : List String) (name opts : String) (tr : List Event) (lg : List LogMsg),
      name ∈ dbs →
      createDatabaseIfNotExist pgDriver name opts ⟨⟨dbs⟩, tr, lg⟩
        = (.value false,
           ⟨⟨dbs⟩,
            tr ++ [Event.openTransient opts, Event.adminQuery kCountDatabaseQuery],
            lg⟩))
    ∧ (∀ (dbs : List String) (name opts : String) (tr : List Event) (lg : List LogMsg),
      name ∉ dbs →
      (createDatabaseIfNotExist pgDriver name opts ⟨⟨dbs⟩, tr, lg⟩).1 = .value true
      ∧ (createDatabaseIfNotExist pgDriver name opts
          ((createDatabaseIfNotExist pgDriver name opts ⟨⟨dbs⟩, tr, lg⟩).2)).1
        = .value false) := by
  refine ⟨createDB_absent, createDB_present, ?_⟩
  intro dbs name opts tr lg h
  constructor
  · rw [createDB_absent dbs name opts tr lg h]
  · rw [createDB_absent dbs name opts tr lg h]
    rw [createDB_present (dbs ++ [name]) name opts _ lg (by simp)]

/-- C6 witness: the spec's example name on a fresh server — created on the
first call, reported existing on the second. -/
theorem c6_createDatabaseIfNotExist_idempotent_witness :
    (createDatabaseIfNotExist pgDriver "d1a2b3c4" "host=h" (stPg [])).1 = .value true
    ∧ (createDatabaseIfNotExist pgDriver "d1a2b3c4" "host=h"
        ((createDatabaseIfNotExist pgDriver "d1a2b3c4" "host=h" (stPg [])).2)).1
      = .value false :=
  c6_createDatabaseIfNotExist_idempotent.2.2 [] "d1a2b3c4" "host=h" [] [] (by simp)
